import Mathlib

/-!
Shallow embedding of the pandas apply/aggregate dispatch engine
(`pandas/core/apply.py`): the `Apply` / `FrameApply` / `FrameRowApply` /
`FrameColumnApply` / `SeriesApply` hierarchy, together with the parts of the
collaborating constructors (`DataFrame(data=results)`, `Series(...)`) that the
engine's control flow depends on.  Dynamic Python values are modelled by a
closed `Val` type, per-slice results by `RawResult`, and exceptions by
`Except PErr`.
-/

set_option maxRecDepth 4096

deriving instance DecidableEq for Except

namespace PandasApply

/-- Row/column labels (pandas Index entries), modelled as strings. -/
abbrev Label := String

/-- Column storage dtypes that the engine's control flow distinguishes. -/
inductive Dtype where
  | float64
  | int64
  | boolT
  | object
  | extension
deriving DecidableEq, Repr

/-- Scalar cell values.  `nan` is the not-a-number sentinel (`np.nan`). -/
inductive Val where
  | int (n : Int)
  | nan
  | str (s : String)
  | boolV (b : Bool)
deriving DecidableEq, Repr

/-- A pandas Series: a named one-dimensional labelled column. -/
structure SeriesS where
  name : Option Label
  index : List Label
  values : List Val
  dtype : Dtype
deriving DecidableEq, Repr

/-- A pandas DataFrame: row labels, column labels, column-major data and
per-column dtypes. -/
structure TableT where
  index : List Label
  columns : List Label
  data : List (List Val)
  dtypes : List Dtype
deriving DecidableEq, Repr

/-- Whatever a user transformation returned for one slice: a scalar, a plain
1-d sequence (list / 1-d ndarray), a labelled Series, a dict, or a 2-d
DataFrame-like object. -/
inductive RawResult where
  | scalar (v : Val)
  | seq (vs : List Val)
  | series (s : SeriesS)
  | dictR (d : List (Label × Val))
  | frame (t : TableT)
deriving DecidableEq, Repr

/-- `np.asarray(res).ndim`: dict and scalar objects are 0-d, sequences and
Series are 1-d, frames are 2-d. -/
def RawResult.ndim : RawResult → Nat
  | .scalar _ => 0
  | .dictR _ => 0
  | .seq _ => 1
  | .series _ => 1
  | .frame _ => 2

/-- `len(res)` for 1-dimensional results. -/
def RawResult.len1 : RawResult → Nat
  | .seq vs => vs.length
  | .series s => s.values.length
  | .dictR d => d.length
  | .scalar _ => 0
  | .frame t => t.index.length

/-- `isinstance(r, ABCSeries)`. -/
def RawResult.isSeriesLikeB : RawResult → Bool
  | .series _ => true
  | _ => false

/-- `isinstance(r, dict)`. -/
def RawResult.isDictLikeB : RawResult → Bool
  | .dictR _ => true
  | _ => false

/-- scalar (no length, or a plain string)? -/
def RawResult.isScalarB : RawResult → Bool
  | .scalar _ => true
  | _ => false

/-- `is_sequence(r)`: iterable with a length, excluding plain strings.
Sequences, Series, dicts and frames all qualify; scalars (including string
scalars) do not. -/
def RawResult.isSequenceB : RawResult → Bool
  | .scalar _ => false
  | _ => true

/-- Exceptions surfaced by the engine or its collaborators.  `user n` stands
for an arbitrary exception raised by the user transformation. -/
inductive PErr where
  | invalidResultType
  | tooManyDims
  | cannotBroadcast
  | allArraysSameLength
  | arrayIndexMismatch
  | scalarNoIndex
  | lengthMismatch
  | typeMismatch
  | assertionFailed
  | user (n : Nat)
deriving DecidableEq, Repr

/-- The argument a user callable receives: a labelled Series slice, a single
scalar (series elementwise path), or a raw unlabelled array (raw path). -/
inductive PyObj where
  | ser (s : SeriesS)
  | val (v : Val)
  | arr (vs : List Val)

/-- A user callable, taking its argument plus extra positional args and
keyword args (the latter are consumed only through currying). -/
abbrev Fn2 := PyObj → List Val → List (String × Val) → Except PErr RawResult

/-- Classification of the supplied transformation.  `plain` carries the
result of `_get_cython_func` on it (the built-in-reduction tag, a function
identity lookup) alongside the callable itself; collections are opaque to the
engine (they are delegated whole) and carry a tag. -/
inductive Func where
  | plain (cy : Option String) (f : Fn2)
  | ufunc (u : Val → Val)
  | name (s : String)
  | funcList (tag : Nat)
  | funcDict (tag : Nat)

/-- `is_list_like(func)`: lists and dicts both qualify. -/
def Func.isListLikeB : Func → Bool
  | .funcList _ => true
  | .funcDict _ => true
  | _ => false

/-- `is_dict_like(func)`. -/
def Func.isDictLikeB : Func → Bool
  | .funcDict _ => true
  | _ => false

/-- `isinstance(func, str)`. -/
def Func.isStrB : Func → Bool
  | .name _ => true
  | _ => false

/-- `isinstance(func, np.ufunc)`. -/
def Func.isUfuncB : Func → Bool
  | .ufunc _ => true
  | _ => false

/-- `callable(func)`: plain callables and ufuncs. -/
def Func.isCallableB : Func → Bool
  | .plain _ _ => true
  | .ufunc _ => true
  | _ => false

/-- Keyword-argument dictionary, in insertion order. -/
abbrev KwList := List (String × Val)

/-- Python dict assignment `kw[k] = v`: replace in place or append. -/
def setKw (kw : KwList) (k : String) (v : Val) : KwList :=
  if kw.any (fun p => p.1 = k) then
    kw.map (fun p => if p.1 = k then (k, v) else p)
  else kw ++ [(k, v)]

/-- Python `kw.pop(k, default)`, the removal part. -/
def eraseKw (kw : KwList) (k : String) : KwList :=
  kw.filter (fun p => p.1 ≠ k)

/-- Python `kw.get(k)`. -/
def lookupKw (kw : KwList) (k : String) : Option Val :=
  (kw.find? (fun p => p.1 = k)).map (fun p => p.2)

/-- Validated `result_type` (`None` is `rnone`). -/
inductive RType where
  | rnone
  | reduce
  | broadcast
  | expand
deriving DecidableEq, Repr

/-- Operation kind. -/
inductive How where
  | apply
  | agg
deriving DecidableEq, Repr

/-- Axis selected by the `frame_apply` factory (`FrameRowApply` = `a0`,
`FrameColumnApply` = `a1`). -/
inductive Axis2 where
  | a0
  | a1
deriving DecidableEq, Repr

/-- The target object of a job: a DataFrame or a Series. -/
inductive PandasObj where
  | frame (t : TableT)
  | ser (s : SeriesS)
deriving DecidableEq, Repr

/-- One apply/aggregate job (`Apply.__init__` state after construction).
`func` is `self.f`, i.e. the possibly curried transformation. -/
structure Job where
  obj : PandasObj
  how : How
  axis : Axis2
  raw : Bool
  result_type : RType
  convert_dtype : Bool
  args : List Val
  kwds : KwList
  func : Func

/-- External-collaborator calls the engine delegates to (aggregation
planners, string-method resolution, named reductions).  Their results are
opaque; the call itself, with its arguments, is the modelled outcome. -/
inductive ExtCall where
  | frameAggregate (t : TableT) (isDict : Bool) (tag : Nat) (axis : Axis2)
      (args : List Val) (kwds : KwList)
  | frameMethod (t : TableT) (s : String) (args : List Val) (kwds : KwList)
  | tryAggString (o : PandasObj) (s : String) (args : List Val) (kwds : KwList)
  | aggDict (o : PandasObj) (tag : Nat) (axisArg : Val)
  | aggList (o : PandasObj) (tag : Nat) (axisArg : Val)
  | namedReduction (o : PandasObj) (s : String)
  | seriesAggregate (s : SeriesS) (isDict : Bool) (tag : Nat)
      (args : List Val) (kwds : KwList)
deriving DecidableEq, Repr

/-- A finished apply result: a Table, a dtype-bearing Series (possibly an
object Series holding arbitrary raw results as its elements), or a delegated
external call. -/
inductive ApplyOut where
  | table (t : TableT)
  | objSeries (index : List Label) (items : List RawResult) (dtype : Dtype)
  | external (c : ExtCall)
deriving DecidableEq, Repr

/-- Environment facts about the target's methods that string dispatch
inspects (`inspect.getfullargspec(func)`; does the method accept `axis`?). -/
structure Env where
  acceptsAxis : String → Bool

/-! ## Generic helpers -/

/-- Sequential monadic map over a list, failing at the first error (the
engine's per-slice invocation loop). -/
def mapE (f : α → Except PErr β) : List α → Except PErr (List β)
  | [] => .ok []
  | a :: as =>
    match f a with
    | .error e => .error e
    | .ok b =>
      match mapE f as with
      | .error e => .error e
      | .ok bs => .ok (b :: bs)

/-- Dtype of a single scalar. -/
def scalarDtype : Val → Dtype
  | .int _ => .int64
  | .nan => .float64
  | .boolV _ => .boolT
  | .str _ => .object

/-- Best-effort dtype inference over a list of scalars (the result-narrowing
the constructors and `infer_objects` perform). -/
def inferDtype (vs : List Val) : Dtype :=
  if vs.isEmpty then .object
  else if vs.all (fun v => match v with | .int _ => true | _ => false) then .int64
  else if vs.all (fun v => match v with | .int _ => true | .nan => true | _ => false) then
    .float64
  else if vs.all (fun v => match v with | .boolV _ => true | _ => false) then .boolT
  else .object

/-- Dtype of a Series built from raw results: proper inference when all are
scalars, generic object storage otherwise. -/
def inferRDtype (items : List RawResult) : Dtype :=
  if items.all (fun r => r.isScalarB) then
    inferDtype (items.filterMap (fun r => match r with | .scalar v => some v | _ => none))
  else .object

/-- Label lookup in a Series (`s[label]`), `nan` when absent. -/
def serLookup (s : SeriesS) (l : Label) : Val :=
  match (s.index.zip s.values).find? (fun p => p.1 = l) with
  | some p => p.2
  | none => .nan

/-- Label lookup in a dict. -/
def lookupPairs (d : List (Label × Val)) (l : Label) : Option Val :=
  (d.find? (fun p => p.1 = l)).map (fun p => p.2)

/-- Ordered union of label lists, first occurrence wins (index union used by
the DataFrame dict constructor when aligning Series values). -/
def orderedUnion (ls : List (List Label)) : List Label :=
  ls.foldl (fun acc l => l.foldl (fun a x => if a.contains x then a else a ++ [x]) acc) []

/-- Positional labels `0..n-1` (a default RangeIndex). -/
def natLabels (n : Nat) : List Label :=
  (List.range n).map (fun i => toString i)

/-- Common dtype of a 2-d block of columns (a row view's dtype). -/
def commonDtype (ds : List Dtype) : Dtype :=
  match ds with
  | [] => .object
  | d :: rest => if rest.all (fun x => x = d) then d else .object

/-- The columns of a table as labelled Series (`target[col]` for each
column, in order). -/
def TableT.colsList (t : TableT) : List SeriesS :=
  (t.columns.zip (t.data.zip t.dtypes)).map
    (fun p => ⟨some p.1, t.index, p.2.1, p.2.2⟩)

/-- The rows of a table as labelled Series (what the column-wise slice
iterator yields, one Series per row, indexed by the column labels). -/
def TableT.rowsList (t : TableT) : List SeriesS :=
  (List.range t.index.length).map
    (fun i => ⟨t.index.get? i, t.columns,
               t.data.map (fun col => col.getD i .nan), commonDtype t.dtypes⟩)

/-- Transpose (`.T`): swap labels and data orientation. -/
def transposeTable (t : TableT) : TableT :=
  let d := (List.range t.index.length).map (fun i => t.data.map (fun col => col.getD i .nan))
  ⟨t.columns, t.index, d, d.map inferDtype⟩

/-- `DataFrame.infer_objects()`: narrow generic-object columns, keep the
rest. -/
def inferObjectsT (t : TableT) : TableT :=
  let ds := List.zipWith (fun d col => if d = .object then inferDtype col else d)
    t.dtypes t.data
  { t with dtypes := ds }

/-- Invoke the stored transformation with no extra arguments (`self.f(v)`);
strings and collections are not callable. -/
def callF (f : Func) (x : PyObj) : Except PErr RawResult :=
  match f with
  | .plain _ f2 => f2 x [] []
  | .ufunc u =>
    match x with
    | .ser s => .ok (.series ⟨s.name, s.index, s.values.map u, inferDtype (s.values.map u)⟩)
    | .val v => .ok (.scalar (u v))
    | .arr vs => .ok (.seq (vs.map u))
  | _ => .error .typeMismatch

/-! ## Construction (`Apply.__init__` and the factories) -/

/-- The set of admissible `result_type` inputs
(`{None, "reduce", "broadcast", "expand"}`). -/
def parseResultType : Option String → Option RType
  | Option.none => some .rnone
  | some s =>
    if s = "reduce" then some .reduce
    else if s = "broadcast" then some .broadcast
    else if s = "expand" then some .expand
    else Option.none

/-- Curry extra args/kwds into a zero-extra-argument callable.  The wrapper
is a fresh function, so its `_get_cython_func` lookup comes up empty. -/
def curryFunc (func : Func) (args : List Val) (kwds : KwList) : Func :=
  match func with
  | .plain _ f2 => .plain Option.none (fun x _ _ => f2 x args kwds)
  | f => f

/-- `Apply.__init__`: store the configuration, validate `result_type`
(`ValueError` on a bad value), then curry a plain callable when extra
args/kwds were supplied (ufuncs, strings and collections are never
curried). -/
def Apply.mk (obj : PandasObj) (how : How) (func : Func) (axis : Axis2)
    (raw : Bool) (result_type : Option String) (convert_dtype : Bool)
    (args : List Val) (kwds : KwList) : Except PErr Job :=
  match parseResultType result_type with
  | Option.none => .error .invalidResultType
  | some rt =>
    let f :=
      if (kwds ≠ [] ∨ args ≠ []) ∧ ¬func.isUfuncB ∧ ¬func.isStrB ∧ ¬func.isListLikeB
      then curryFunc func args kwds else func
    .ok ⟨obj, how, axis, raw, rt, convert_dtype, args, kwds, f⟩

/-- `frame_apply`: build a row- or column-based frame apply job. -/
def frame_apply (t : TableT) (how : How) (func : Func) (axis : Axis2)
    (raw : Bool) (result_type : Option String) (args : List Val)
    (kwds : KwList) : Except PErr Job :=
  Apply.mk (.frame t) how func axis raw result_type true args kwds

/-- `series_apply` / `SeriesApply.__init__`: a series job always passes
`raw=False` and `result_type=None`; only `convert_dtype` comes from the
caller. -/
def series_apply (s : SeriesS) (how : How) (func : Func) (convert_dtype : Bool)
    (args : List Val) (kwds : KwList) : Except PErr Job :=
  Apply.mk (.ser s) how func .a0 false Option.none convert_dtype args kwds

/-! ## Collaborating constructors -/

/-- `pd.Series(r, index=idx)` for one raw value: scalars broadcast over the
index, sequences must match its length, labelled values are realigned. -/
def constructorSliced1 (r : RawResult) (idx : List Label) : Except PErr ApplyOut :=
  match r with
  | .scalar v =>
    .ok (.objSeries idx (List.replicate idx.length (.scalar v)) (scalarDtype v))
  | .seq vs =>
    if vs.length = idx.length then
      .ok (.objSeries idx (vs.map (fun v => .scalar v)) (inferDtype vs))
    else .error .lengthMismatch
  | .series s =>
    .ok (.objSeries idx (idx.map (fun l => .scalar (serLookup s l))) s.dtype)
  | .dictR d =>
    .ok (.objSeries idx (idx.map (fun l => .scalar ((lookupPairs d l).getD .nan))) .object)
  | .frame _ => .error .typeMismatch

/-- `pd.Series(results)` over the positional raw-result mapping followed by
`res.index = res_index`: an object Series holding the raw results, relabelled
(the relabelling requires matching lengths). -/
def constructorSlicedMany (items : List RawResult) (idx : List Label) :
    Except PErr ApplyOut :=
  if items.length = idx.length then .ok (.objSeries idx items (inferRDtype items))
  else .error .lengthMismatch

/-- Lengths of the plain-array entries of a raw-result mapping. -/
def seqLengths (results : List RawResult) : List Nat :=
  results.filterMap (fun r => match r with | .seq vs => some vs.length | _ => none)

/-- Indexes contributed by labelled entries (Series and dicts) of a
raw-result mapping. -/
def seriesIndexes (results : List RawResult) : List (List Label) :=
  results.filterMap (fun r =>
    match r with
    | .series s => some s.index
    | .dictR d => some (d.map (fun p => p.1))
    | _ => none)

/-- Expand one raw value into a column over a fixed row index. -/
def expandToIndex (rowIdx : List Label) (r : RawResult) : List Val :=
  match r with
  | .scalar v => List.replicate rowIdx.length v
  | .seq vs => vs
  | .series s => rowIdx.map (serLookup s)
  | .dictR d => rowIdx.map (fun l => (lookupPairs d l).getD .nan)
  | .frame _ => []

/-- `self.obj._constructor(data=results)` — the DataFrame dict constructor on
the positional raw-result mapping, mirroring `extract_index`: plain arrays
must all share one length (`"All arrays must be of the same length"`);
labelled entries contribute a union index, which array lengths must then
match; all-scalar data needs an explicit index.  Columns are keyed
positionally. -/
def dataframe_from_results (results : List RawResult) : Except PErr TableT :=
  if results.any (fun r => match r with | .frame _ => true | _ => false) then
    .error .typeMismatch
  else
    let lens := seqLengths results
    let sidx := seriesIndexes results
    if lens ≠ [] ∧ lens.any (fun L => L ≠ lens.headD 0) then .error .allArraysSameLength
    else if sidx = [] then
      match lens with
      | [] => .error .scalarNoIndex
      | L :: _ =>
        let ri := natLabels L
        let d := results.map (expandToIndex ri)
        .ok ⟨ri, natLabels results.length, d, d.map inferDtype⟩
    else
      let ri := orderedUnion sidx
      if lens ≠ [] ∧ lens.headD 0 ≠ ri.length then .error .arrayIndexMismatch
      else
        let d := results.map (expandToIndex ri)
        .ok ⟨ri, natLabels results.length, d, d.map inferDtype⟩

/-- `obj._constructor_expanddim(pd_array(mapped), index=obj.index)`: a list
of Series becomes the rows of a new table (columns are the union of their
indexes); any non-Series element makes the nested construction fail. -/
def constructorExpanddim (mapped : List RawResult) (idx : List Label) :
    Except PErr TableT :=
  if mapped.all (fun r => r.isSeriesLikeB) then
    let sers := mapped.filterMap (fun r => match r with | .series s => some s | _ => none)
    if sers.length = idx.length then
      let cols := orderedUnion (sers.map (fun s => s.index))
      let d := cols.map (fun c => sers.map (fun s => serLookup s c))
      .ok ⟨idx, cols, d, d.map inferDtype⟩
    else .error .lengthMismatch
  else .error .typeMismatch

/-! ## FrameApply -/

/-- `self.agg_axis` = `obj._get_agg_axis(self.axis)`: columns for axis 0,
the row index for axis 1. -/
def agg_axis (st : Job) (tbl : TableT) : List Label :=
  match st.axis with
  | .a0 => tbl.columns
  | .a1 => tbl.index

/-- `result_index` of the axis variant: columns for `FrameRowApply`, the row
index for `FrameColumnApply`. -/
def result_index (st : Job) (tbl : TableT) : List Label :=
  match st.axis with
  | .a0 => tbl.columns
  | .a1 => tbl.index

/-- `result_columns` (= `res_columns`) of the axis variant. -/
def result_columns (st : Job) (tbl : TableT) : List Label :=
  match st.axis with
  | .a0 => tbl.index
  | .a1 => tbl.columns

/-- The empty float64 probe series `Series([], dtype=np.float64)`. -/
def emptyFloatSeries : SeriesS := ⟨Option.none, [], [], .float64⟩

/-- `FrameApply.apply_empty_result`: with an explicit non-reduce
`result_type`, return a copy.  Otherwise classify the transformation by
invoking it on the empty float64 probe (a raised error means
non-reduction-like; a Series result means non-reduction-like); an explicit
`"reduce"` skips the probe.  Reduction-like results are wrapped as a Series
over `agg_axis`, using the probe value when `agg_axis` is non-empty and
`np.nan` when it is empty; otherwise a copy is returned. -/
def apply_empty_result (st : Job) (tbl : TableT) : Except PErr ApplyOut :=
  if ¬st.func.isCallableB then .error .assertionFailed
  else if ¬(st.result_type = .reduce ∨ st.result_type = .rnone) then .ok (.table tbl)
  else
    let shouldReduce : Bool :=
      if st.result_type = .reduce then true
      else
        match callF st.func (.ser emptyFloatSeries) with
        | .error _ => false
        | .ok r => !r.isSeriesLikeB
    if shouldReduce then
      if agg_axis st tbl ≠ [] then
        match callF st.func (.ser emptyFloatSeries) with
        | .error e => .error e
        | .ok r => constructorSliced1 r (agg_axis st tbl)
      else constructorSliced1 (.scalar .nan) (agg_axis st tbl)
    else .ok (.table tbl)

/-- Is `r` admissible for broadcasting over `nrows` rows (scalar, or 1-d of
exactly the compared length)?  `badBroadcast` is the complement used by the
shape checks. -/
def badBroadcast (nrows : Nat) (r : RawResult) : Bool :=
  decide (1 < r.ndim) || (decide (r.ndim = 1) && decide (r.len1 ≠ nrows))

/-- Fill one output column of the broadcast buffer
(`result_values[:, i] = res`): scalars broadcast, 1-d values are written
through.  0-d object scalars (dicts) are abstracted to `nan` cells. -/
def fillBroadcastCol (nrows : Nat) (r : RawResult) : List Val :=
  match r with
  | .scalar v => List.replicate nrows v
  | .seq vs => vs
  | .series s => s.values
  | .dictR _ => List.replicate nrows .nan
  | .frame _ => List.replicate nrows .nan

/-- The per-column broadcast loop: invoke the transformation on each column
in order, raise `"too many dims to broadcast"` on a >1-d result and
`"cannot broadcast result"` on a 1-d result whose length differs from the
row count, and otherwise fill the column. -/
def broadcastLoop (func : Func) (nrows : Nat) : List SeriesS → Except PErr (List (List Val))
  | [] => .ok []
  | c :: rest =>
    match callF func (.ser c) with
    | .error e => .error e
    | .ok r =>
      if 1 < r.ndim then .error .tooManyDims
      else if r.ndim = 1 ∧ r.len1 ≠ nrows then .error .cannotBroadcast
      else
        match broadcastLoop func nrows rest with
        | .error e => .error e
        | .ok others => .ok (fillBroadcastCol nrows r :: others)

/-- `FrameApply.apply_broadcast(target)`: validate and fill a same-shape
buffer column by column, then rebuild a table that always keeps the target's
own index and columns. -/
def apply_broadcast (st : Job) (target : TableT) : Except PErr ApplyOut :=
  if ¬st.func.isCallableB then .error .assertionFailed
  else
    match broadcastLoop st.func target.index.length target.colsList with
    | .error e => .error e
    | .ok cols =>
      .ok (.table ⟨target.index, target.columns, cols, cols.map inferDtype⟩)

/-- Axis dispatch for broadcasting: `FrameColumnApply` transposes the target,
delegates to the row variant and transposes the result back. -/
def apply_broadcast_axis (st : Job) (tbl : TableT) : Except PErr ApplyOut :=
  match st.axis with
  | .a0 => apply_broadcast st tbl
  | .a1 =>
    match apply_broadcast st (transposeTable tbl) with
    | .ok (.table t) => .ok (.table (transposeTable t))
    | r => r

/-- `FrameApply.apply_raw`: apply the transformation along the chosen axis on
the raw 1-d value arrays (`np.apply_along_axis`); an all-scalar outcome gives
a 1-d result wrapped over `agg_axis`, uniform 1-d outcomes give a 2-d result
rebuilt with the original labels (shape permitting). -/
def apply_raw (st : Job) (tbl : TableT) : Except PErr ApplyOut :=
  let rawSlices :=
    match st.axis with
    | .a0 => tbl.data
    | .a1 => (List.range tbl.index.length).map (fun i => tbl.data.map (fun col => col.getD i .nan))
  match mapE (fun vs => callF st.func (.arr vs)) rawSlices with
  | .error e => .error e
  | .ok results =>
    if results.all (fun r => r.isScalarB) then
      if results.length = (agg_axis st tbl).length then
        .ok (.objSeries (agg_axis st tbl) results (inferRDtype results))
      else .error .lengthMismatch
    else if results.all (fun r => match r with | .seq _ => true | _ => false) then
      let rss := results.filterMap (fun r => match r with | .seq vs => some vs | _ => none)
      let L := (rss.headD []).length
      if rss.all (fun vs => vs.length = L) then
        match st.axis with
        | .a0 =>
          if L = tbl.index.length ∧ rss.length = tbl.columns.length then
            .ok (.table ⟨tbl.index, tbl.columns, rss, rss.map inferDtype⟩)
          else .error .lengthMismatch
        | .a1 =>
          if L = tbl.columns.length ∧ rss.length = tbl.index.length then
            let d := (List.range L).map (fun j => rss.map (fun vs => vs.getD j .nan))
            .ok (.table ⟨tbl.index, tbl.columns, d, d.map inferDtype⟩)
          else .error .lengthMismatch
      else .error .typeMismatch
    else .error .typeMismatch

/-- `series_generator` of the axis variant: the columns (row-wise apply) or
the rows (column-wise apply) as labelled Series, in positional order. -/
def series_generator (st : Job) (tbl : TableT) : List SeriesS :=
  match st.axis with
  | .a0 => tbl.colsList
  | .a1 => tbl.rowsList

/-- `FrameApply.apply_series_generator`: invoke the transformation on each
slice in order (user exceptions propagate); Series results are shallow-copied
against the recycled row buffer, which is the identity here. -/
def apply_series_generator (st : Job) (tbl : TableT) : Except PErr (List RawResult) :=
  mapE (fun s => callF st.func (.ser s)) (series_generator st tbl)

/-- `infer_to_same_shape`: build a table from the raw-result mapping,
transpose it, relabel its rows with `res_index` and run dtype inference. -/
def infer_to_same_shape (results : List RawResult) (resIndex : List Label) :
    Except PErr ApplyOut :=
  match dataframe_from_results results with
  | .error e => .error e
  | .ok tbl =>
    let tt := transposeTable tbl
    if resIndex.length = tt.index.length then
      .ok (.table (inferObjectsT { tt with index := resIndex }))
    else .error .lengthMismatch

/-- `FrameRowApply.wrap_results_for_axis`: explicit `"reduce"`, or a `None`
result_type with all-dict results, gives a reduced Series; otherwise try the
full table construction, fall back to the reduced Series when it fails with
the unequal-length error (and only then), and finish with best-effort
relabelling (skipped silently on length mismatch). -/
def FrameRowApply.wrap_results_for_axis (st : Job) (tbl : TableT)
    (results : List RawResult) (resIndex : List Label) : Except PErr ApplyOut :=
  if st.result_type = .reduce then constructorSlicedMany results resIndex
  else if st.result_type = .rnone ∧ results.all (fun r => r.isDictLikeB) then
    constructorSlicedMany results resIndex
  else
    match dataframe_from_results results with
    | .error .allArraysSameLength => constructorSlicedMany results resIndex
    | .error e => .error e
    | .ok res0 =>
      let resCols := result_columns st tbl
      let res1 :=
        if ¬(results.headD (.scalar .nan)).isSeriesLikeB ∧ res0.index.length = resCols.length
        then { res0 with index := resCols } else res0
      let res2 :=
        if res1.columns.length = resIndex.length then { res1 with columns := resIndex }
        else res1
      .ok (.table res2)

/-- `FrameColumnApply.wrap_results_for_axis`: expand on request; a
non-Series first result gives a reduced Series; otherwise infer back to the
tabular shape. -/
def FrameColumnApply.wrap_results_for_axis (st : Job)
    (results : List RawResult) (resIndex : List Label) : Except PErr ApplyOut :=
  if st.result_type = .expand then infer_to_same_shape results resIndex
  else if ¬(results.headD (.scalar .nan)).isSeriesLikeB then
    constructorSlicedMany results resIndex
  else infer_to_same_shape results resIndex

/-- `FrameApply.wrap_results`: sequence-like first result delegates to the
axis variant; otherwise the all-scalar path builds a reduced Series
(defaulting to float64 when empty) relabelled by `res_index`. -/
def wrap_results (st : Job) (tbl : TableT) (results : List RawResult)
    (resIndex : List Label) : Except PErr ApplyOut :=
  if results ≠ [] ∧ (results.headD (.scalar .nan)).isSequenceB then
    match st.axis with
    | .a0 => FrameRowApply.wrap_results_for_axis st tbl results resIndex
    | .a1 => FrameColumnApply.wrap_results_for_axis st results resIndex
  else
    let dt := if results.isEmpty then Dtype.float64 else inferRDtype results
    if results.length = resIndex.length then .ok (.objSeries resIndex results dt)
    else .error .lengthMismatch

/-- `FrameApply.apply_standard`: run the slice loop, then wrap. -/
def apply_standard (st : Job) (tbl : TableT) : Except PErr ApplyOut :=
  match apply_series_generator st tbl with
  | .error e => .error e
  | .ok results => wrap_results st tbl results (result_index st tbl)

/-- Tag used when delegating a collection transformation whole. -/
def funcTag : Func → Nat
  | .funcList t => t
  | .funcDict t => t
  | _ => 0

/-- Elementwise ufunc over a whole table (`self.obj._mgr.apply` followed by
reconstruction, which retains the original labels). -/
def mapTableU (u : Val → Val) (tbl : TableT) : TableT :=
  let d := tbl.data.map (fun col => col.map u)
  ⟨tbl.index, tbl.columns, d, d.map inferDtype⟩

/-- The numeric axis value injected into kwds by string dispatch. -/
def axisNumVal : Axis2 → Val
  | .a0 => .int 0
  | .a1 => .int 1

/-- `FrameApply.apply`: the fixed-priority dispatch.  Collections delegate to
aggregation; a fully empty table takes the degenerate-empty path; method-name
strings resolve on the target (injecting `axis` into `self.kwds` when the
method accepts it — a mutation of the job); ufuncs take the vectorized fast
path; then broadcasting, the one-axis-empty degenerate path, the raw path and
finally the standard path.  Returns the result together with the job state
after the call. -/
def FrameApply.apply (env : Env) (st : Job) : Except PErr ApplyOut × Job :=
  match st.obj with
  | .ser _ => (.error .typeMismatch, st)
  | .frame tbl =>
    if st.func.isListLikeB ∨ st.func.isDictLikeB then
      (.ok (.external (.frameAggregate tbl st.func.isDictLikeB (funcTag st.func)
        st.axis st.args st.kwds)), st)
    else if tbl.columns = [] ∧ tbl.index = [] then (apply_empty_result st tbl, st)
    else
      match st.func with
      | .name s =>
        if env.acceptsAxis s then
          let kw := setKw st.kwds "axis" (axisNumVal st.axis)
          (.ok (.external (.frameMethod tbl s st.args kw)), { st with kwds := kw })
        else (.ok (.external (.frameMethod tbl s st.args st.kwds)), st)
      | .ufunc u => (.ok (.table (mapTableU u tbl)), st)
      | _ =>
        if st.result_type = .broadcast then (apply_broadcast_axis st tbl, st)
        else if tbl.index = [] ∨ tbl.columns = [] then (apply_empty_result st tbl, st)
        else if st.raw then (apply_raw st tbl, st)
        else (apply_standard st tbl, st)

/-! ## Apply.agg -/

/-- `Apply.agg`: pop `"_axis"` out of the stored kwds (a mutation), then
resolve — strings via the target's string aggregation, dicts via the dict
planner (post-processing required), lists via the list planner, and plain
callables via the `_get_cython_func` shortcut when no extra args/kwds remain;
everything unrecognized yields `(None, post-processing-required)` without
raising. -/
def Apply.agg (st : Job) : Except PErr (Option ApplyOut × Option Bool) × Job :=
  let axisArg := (lookupKw st.kwds "_axis").getD (.int 0)
  let kw := eraseKw st.kwds "_axis"
  let st1 := { st with kwds := kw }
  match st.func with
  | .name s => (.ok (some (.external (.tryAggString st.obj s st.args kw)), Option.none), st1)
  | .funcDict tag => (.ok (some (.external (.aggDict st.obj tag axisArg)), some true), st1)
  | .funcList tag => (.ok (some (.external (.aggList st.obj tag axisArg)), Option.none), st1)
  | .plain cy _ =>
    match cy with
    | some nm =>
      if st.args = [] ∧ kw = [] then
        (.ok (some (.external (.namedReduction st.obj nm)), Option.none), st1)
      else (.ok (Option.none, some true), st1)
    | Option.none => (.ok (Option.none, some true), st1)
  | .ufunc _ => (.ok (Option.none, some true), st1)

/-! ## SeriesApply -/

/-- `SeriesApply.apply_empty_result`: an empty series of the same dtype and
index (name preserved by `__finalize__`). -/
def SeriesApply.apply_empty_result (obj : SeriesS) : ApplyOut :=
  .objSeries obj.index [] obj.dtype

/-- Result dtype of the elementwise map: extension storage maps natively;
otherwise `lib.map_infer` narrows only when `convert_dtype` is set. -/
def mappedDtype (convert : Bool) (objDtype : Dtype) (mapped : List RawResult) : Dtype :=
  if objDtype = .extension then inferRDtype mapped
  else if convert then inferRDtype mapped
  else .object

/-- `SeriesApply.apply_standard`: a ufunc applies to the whole series in one
call; a plain callable maps elementwise (native extension map or
`lib.map_infer`), then the output re-expands into a table when the first
mapped value is a Series, and otherwise wraps as a Series over the original
index. -/
def SeriesApply.apply_standard (st : Job) (obj : SeriesS) : Except PErr ApplyOut :=
  match st.func with
  | .ufunc u =>
    .ok (.objSeries obj.index ((obj.values.map u).map (fun v => .scalar v))
      (inferDtype (obj.values.map u)))
  | .plain _ f2 =>
    match mapE (fun v => f2 (.val v) [] []) obj.values with
    | .error e => .error e
    | .ok mapped =>
      if mapped ≠ [] ∧ (mapped.headD (.scalar .nan)).isSeriesLikeB then
        match constructorExpanddim mapped obj.index with
        | .error e => .error e
        | .ok t => .ok (.table t)
      else .ok (.objSeries obj.index mapped (mappedDtype st.convert_dtype obj.dtype mapped))
  | _ => .error .typeMismatch

/-- `SeriesApply.apply`: empty series short-circuit; lists and dicts delegate
to aggregation; strings resolve by name; otherwise the standard elementwise
path.  No broadcast, expand or raw branch exists on the series path. -/
def SeriesApply.apply (st : Job) : Except PErr ApplyOut :=
  match st.obj with
  | .frame _ => .error .typeMismatch
  | .ser obj =>
    if obj.values.length = 0 then .ok (SeriesApply.apply_empty_result obj)
    else
      match st.func with
      | .funcList tag => .ok (.external (.seriesAggregate obj false tag st.args st.kwds))
      | .funcDict tag => .ok (.external (.seriesAggregate obj true tag st.args st.kwds))
      | .name s => .ok (.external (.tryAggString st.obj s st.args st.kwds))
      | _ => SeriesApply.apply_standard st obj

/-! ## Theorems -/

/-- The admissible `result_type` inputs, as a decidable predicate. -/
def validResultType (rt : Option String) : Prop :=
  rt = Option.none ∨ rt = some "reduce" ∨ rt = some "broadcast" ∨ rt = some "expand"

instance (rt : Option String) : Decidable (validResultType rt) := by
  unfold validResultType; infer_instance

theorem parseResultType_valid (rt : Option String) :
    (parseResultType rt).isSome = true ↔ validResultType rt := by
  cases rt with
  | none => simp [parseResultType, validResultType]
  | some s =>
    by_cases h1 : s = "reduce"
    · simp [parseResultType, validResultType, h1]
    · by_cases h2 : s = "broadcast"
      · simp [parseResultType, validResultType, h1, h2]
      · by_cases h3 : s = "expand"
        · simp [parseResultType, validResultType, h1, h2, h3]
        · simp [parseResultType, validResultType, h1, h2, h3]

/-- C7: `Apply.__init__` fails with the invalid-`result_type` error exactly
when `result_type` is outside {None, "reduce", "broadcast", "expand"},
and construction with a valid `result_type` always succeeds (so it never
raises that error). -/
theorem construction_validates_result_type (obj : PandasObj) (how : How)
    (func : Func) (axis : Axis2) (raw : Bool) (rt : Option String) (cd : Bool)
    (args : List Val) (kwds : KwList) :
    (Apply.mk obj how func axis raw rt cd args kwds = .error .invalidResultType
      ↔ ¬validResultType rt)
    ∧ ((Apply.mk obj how func axis raw rt cd args kwds).isOk = true
      ↔ validResultType rt) := by
  have h := parseResultType_valid rt
  cases hp : parseResultType rt with
  | none =>
    rw [hp] at h
    simp only [Option.isSome_none, Bool.false_eq_true, false_iff] at h
    simp [Apply.mk, hp, h, Except.isOk, Except.toBool]
  | some rtv =>
    rw [hp] at h
    simp only [Option.isSome_some, true_iff] at h
    simp [Apply.mk, hp, h, Except.isOk, Except.toBool]

/-- C10: every series apply job is constructed with `result_type = None` and
`raw = False` regardless of caller input, so construction always succeeds
(the `result_type` validation error cannot fire and the broadcast/expand/raw
dispatch predicates are all off); only `convert_dtype` is caller-set. -/
theorem series_job_fixes_result_type_and_raw (s : SeriesS) (how : How)
    (func : Func) (cd : Bool) (args : List Val) (kwds : KwList) :
    (series_apply s how func cd args kwds).isOk = true
    ∧ (series_apply s how func cd args kwds).toOption.map (fun j => j.result_type)
        = some .rnone
    ∧ (series_apply s how func cd args kwds).toOption.map (fun j => j.raw)
        = some false
    ∧ (series_apply s how func cd args kwds).toOption.map (fun j => j.convert_dtype)
        = some cd := by
  refine ⟨?_, ?_, ?_, ?_⟩ <;> rfl

/-- C8: on the aggregate path, a job built from a plain callable that is not
recognized as a built-in reduction — or that carries extra args/kwds, which
currying turns into an unrecognizable wrapper — resolves to a `None` result
plus the post-processing-required flag, without raising; the only job state
change is the `"_axis"` pop. -/
theorem agg_defers_unrecognized_callable (obj : PandasObj) (how : How)
    (axis : Axis2) (raw : Bool) (rt : Option String) (cd : Bool)
    (args : List Val) (kwds : KwList) (cy : Option String) (f2 : Fn2) (j : Job)
    (hmk : Apply.mk obj how (.plain cy f2) axis raw rt cd args kwds = .ok j)
    (hun : cy = Option.none ∨ args ≠ [] ∨ kwds ≠ []) :
    (Apply.agg j).1 = .ok (Option.none, some true)
    ∧ (Apply.agg j).2 = { j with kwds := eraseKw j.kwds "_axis" } := by
  unfold Apply.mk at hmk
  cases hp : parseResultType rt with
  | none => rw [hp] at hmk; exact absurd hmk (by simp)
  | some rtv =>
    rw [hp] at hmk
    simp only [Except.ok.injEq] at hmk
    subst hmk
    by_cases hc : (kwds ≠ [] ∨ args ≠ []) ∧ ¬(Func.plain cy f2).isUfuncB
        ∧ ¬(Func.plain cy f2).isStrB ∧ ¬(Func.plain cy f2).isListLikeB
    · simp only [hc, if_pos, curryFunc]
      exact ⟨rfl, rfl⟩
    · simp only [Func.isUfuncB, Func.isStrB, Func.isListLikeB,
        Bool.not_eq_true, not_and, not_or, not_not] at hc
      have hargs : args = [] ∧ kwds = [] := by
        by_cases hk : kwds = []
        · by_cases ha : args = []
          · exact ⟨ha, hk⟩
          · exact absurd (hc (Or.inr ha)) (by simp)
        · exact absurd (hc (Or.inl hk)) (by simp)
      have hcy : cy = Option.none := by
        rcases hun with h | h | h
        · exact h
        · exact absurd hargs.1 h
        · exact absurd hargs.2 h
      subst hcy
      have hif : ((kwds ≠ [] ∨ args ≠ []) ∧ ¬(Func.plain Option.none f2).isUfuncB
          ∧ ¬(Func.plain Option.none f2).isStrB
          ∧ ¬(Func.plain Option.none f2).isListLikeB) = False := by
        simp [hargs.1, hargs.2]
      simp only [hif, if_false, iff_false]
      exact ⟨rfl, rfl⟩

/-- The two broadcast `ShapeError`s. -/
def PErr.isShapeErr : PErr → Bool
  | .tooManyDims => true
  | .cannotBroadcast => true
  | _ => false

/-- Did the computation abort with a broadcast `ShapeError`? -/
def isShapeErrB : Except PErr α → Bool
  | .error e => e.isShapeErr
  | .ok _ => false

/-- Row/column labels of a successful table result. -/
def outTableLabels : Except PErr ApplyOut → Option (List Label × List Label)
  | .ok (.table t) => some (t.index, t.columns)
  | _ => Option.none

theorem broadcastLoop_shapeErr (func : Func) (n : Nat) :
    ∀ (cs : List SeriesS) (rs : List RawResult),
      mapE (fun c => callF func (.ser c)) cs = .ok rs →
      isShapeErrB (broadcastLoop func n cs) = rs.any (badBroadcast n) := by
  intro cs
  induction cs with
  | nil =>
    intro rs h
    simp only [mapE, Except.ok.injEq] at h
    subst h
    rfl
  | cons c rest ih =>
    intro rs h
    simp only [mapE] at h
    cases hf : callF func (.ser c) with
    | error e => rw [hf] at h; exact absurd h (by simp)
    | ok r =>
      rw [hf] at h
      cases hrest : mapE (fun c => callF func (.ser c)) rest with
      | error e => rw [hrest] at h; exact absurd h (by simp)
      | ok rs2 =>
        rw [hrest] at h
        simp only [Except.ok.injEq] at h
        subst h
        simp only [broadcastLoop, hf]
        by_cases h1 : 1 < r.ndim
        · have hb : badBroadcast n r = true := by
            simp [badBroadcast, h1]
          simp [h1, hb, isShapeErrB, PErr.isShapeErr]
        · by_cases h2 : r.ndim = 1 ∧ r.len1 ≠ n
          · have hb : badBroadcast n r = true := by
              simp [badBroadcast, h2.1, h2.2]
            simp [h1, h2, hb, isShapeErrB, PErr.isShapeErr]
          · have hb : badBroadcast n r = false := by
              simp only [badBroadcast, Bool.or_eq_false_iff, Bool.and_eq_false_iff,
                decide_eq_false_iff_not]
              refine ⟨h1, ?_⟩
              by_cases hd : r.ndim = 1
              · right
                intro hl
                exact h2 ⟨hd, hl⟩
              · left
                exact hd
            simp only [h1, if_false, h2, if_false, List.any_cons, hb, Bool.false_or]
            cases hloop : broadcastLoop func n rest with
            | error e =>
              have := ih rs2 hrest
              rw [hloop] at this
              simpa [isShapeErrB] using this
            | ok o =>
              have := ih rs2 hrest
              rw [hloop] at this
              simpa [isShapeErrB] using this

/-- C1: in broadcast mode, `apply_broadcast` raises a `ShapeError` exactly
when some per-column result has more than one dimension or is 1-d with a
length different from the row count (`target.shape[0]`, the reduction axis);
on success the resulting table always carries the target's own row and
column labels. -/
theorem broadcast_shape_and_labels (st : Job) (target : TableT)
    (rs : List RawResult) (hc : st.func.isCallableB = true)
    (hok : mapE (fun c => callF st.func (.ser c)) target.colsList = .ok rs) :
    isShapeErrB (apply_broadcast st target) = rs.any (badBroadcast target.index.length)
    ∧ ((apply_broadcast st target).isOk = true →
        outTableLabels (apply_broadcast st target)
          = some (target.index, target.columns)) := by
  unfold apply_broadcast
  simp only [hc, not_true_eq_false, if_false, Bool.not_eq_true]
  cases hloop : broadcastLoop st.func target.index.length target.colsList with
  | error e =>
    constructor
    · have := broadcastLoop_shapeErr st.func target.index.length target.colsList rs hok
      rw [hloop] at this
      simpa [isShapeErrB] using this
    · intro hOk
      exact absurd hOk (by simp [Except.isOk, Except.toBool])
  | ok cols =>
    constructor
    · have := broadcastLoop_shapeErr st.func target.index.length target.colsList rs hok
      rw [hloop] at this
      simpa [isShapeErrB] using this
    · intro _
      rfl

theorem callable_not_collection (f : Func) (hc : f.isCallableB = true) :
    f.isListLikeB = false ∧ f.isDictLikeB = false ∧ f.isStrB = false := by
  cases f <;> simp_all [Func.isCallableB, Func.isListLikeB, Func.isDictLikeB, Func.isStrB]

/-- The probe-based behaviour of `apply_empty_result` when `result_type` is
`None`: a raised probe yields a copy, a Series-valued probe yields a copy,
and otherwise the probe value (or `nan` over an empty `agg_axis`) is wrapped
as a reduced Series over `agg_axis`. -/
theorem apply_empty_result_rnone (st : Job) (tbl : TableT)
    (hc : st.func.isCallableB = true) (hrt : st.result_type = .rnone) :
    apply_empty_result st tbl =
      match callF st.func (.ser emptyFloatSeries) with
      | .error _ => .ok (.table tbl)
      | .ok r =>
        if r.isSeriesLikeB = true then .ok (.table tbl)
        else if agg_axis st tbl = [] then
          constructorSliced1 (.scalar .nan) (agg_axis st tbl)
        else constructorSliced1 r (agg_axis st tbl) := by
  unfold apply_empty_result
  simp only [hc, hrt, not_true_eq_false, if_false, Bool.not_eq_true]
  cases hp : callF st.func (.ser emptyFloatSeries) with
  | error e => simp
  | ok r =>
    cases hs : r.isSeriesLikeB with
    | true => simp [hs]
    | false =>
      by_cases ha : agg_axis st tbl = []
      · simp [ha, hs]
      · simp [ha, hs]

/-- C3 (amended: `result_type` is None): on the degenerate-empty path the
transformation is classified by one probe invocation on the empty float64
series; a raised probe error is swallowed and yields a full copy, a
successful probe classifies the transformation as reduction-like exactly when
its value is not Series-like, and a reduction-like outcome is wrapped as a
reduced Series over the preserved axis — the probe's value when that axis is
non-empty, the `nan` sentinel when it is empty. -/
theorem empty_probe_classification (st : Job) (tbl : TableT)
    (hc : st.func.isCallableB = true) (hrt : st.result_type = .rnone) :
    apply_empty_result st tbl =
      match callF st.func (.ser emptyFloatSeries) with
      | .error _ => .ok (.table tbl)
      | .ok r =>
        if r.isSeriesLikeB = true then .ok (.table tbl)
        else if agg_axis st tbl = [] then
          constructorSliced1 (.scalar .nan) (agg_axis st tbl)
        else constructorSliced1 r (agg_axis st tbl) :=
  apply_empty_result_rnone st tbl hc hrt

def env_any : Env := ⟨fun _ => true⟩

def tbl_empty : TableT := ⟨[], [], [], []⟩

def tbl_cols_ab : TableT := ⟨[], ["a", "b"], [[], []], [.float64, .float64]⟩

def func_const7 : Func := .plain Option.none (fun _ _ _ => .ok (.scalar (.int 7)))

def func_raise : Func := .plain Option.none (fun _ _ _ => .error (.user 0))

def job_c3_probe : Job :=
  ⟨.frame tbl_cols_ab, .apply, .a0, false, .rnone, true, [], [], func_const7⟩

def job_c3_reduce : Job :=
  ⟨.frame tbl_cols_ab, .apply, .a0, false, .reduce, true, [], [], func_raise⟩

/-- C3 witness: a probe returning the scalar 7 over a 0-row, 2-column table
is classified reduction-like and wrapped over the non-empty column axis. -/
theorem empty_probe_classification_witness :
    apply_empty_result job_c3_probe tbl_cols_ab
      = .ok (.objSeries ["a", "b"] [.scalar (.int 7), .scalar (.int 7)] .int64) :=
  (empty_probe_classification job_c3_probe tbl_cols_ab rfl rfl).trans (by decide)

/-- C3 counterexample: with an explicit `result_type="reduce"` and a
non-empty preserved axis, no probe classification happens — a raising
transformation aborts the call instead of producing the claimed copy. -/
theorem empty_probe_reduce_fatal_cex :
    apply_empty_result job_c3_reduce tbl_cols_ab = .error (.user 0)
    ∧ apply_empty_result job_c3_reduce tbl_cols_ab ≠ .ok (.table tbl_cols_ab) := by
  decide

/-- C2 (amended): for a zero-row, zero-column table, a callable
transformation and no explicit `result_type`, the apply dispatch lands on the
degenerate-empty path and returns a copy indistinguishable from the input
exactly when the probe classifies the transformation as non-reduction-like
(it raises or returns a Series); a reduction-like probe instead yields an
empty float64 reduced Series. -/
theorem empty_table_apply_copy (env : Env) (st : Job) (tbl : TableT)
    (hobj : st.obj = .frame tbl) (hcols : tbl.columns = []) (hidx : tbl.index = [])
    (hc : st.func.isCallableB = true) (hrt : st.result_type = .rnone) :
    (FrameApply.apply env st).1 =
      match callF st.func (.ser emptyFloatSeries) with
      | .error _ => .ok (.table tbl)
      | .ok r =>
        if r.isSeriesLikeB = true then .ok (.table tbl)
        else .ok (.objSeries [] [] .float64) := by
  have hcoll := callable_not_collection st.func hc
  have hagg : agg_axis st tbl = [] := by
    cases hax : st.axis <;> simp [agg_axis, hax, hcols, hidx]
  have hdisp : (FrameApply.apply env st).1 = apply_empty_result st tbl := by
    simp [FrameApply.apply, hobj, hcoll.1, hcoll.2.1, hcols, hidx]
  rw [hdisp, apply_empty_result_rnone st tbl hc hrt, hagg]
  cases hp : callF st.func (.ser emptyFloatSeries) with
  | error e => rfl
  | ok r =>
    cases hs : r.isSeriesLikeB with
    | true => simp [hs]
    | false => simp [hs, constructorSliced1, scalarDtype]

def job_c2_raise : Job :=
  ⟨.frame tbl_empty, .apply, .a0, false, .rnone, true, [], [], func_raise⟩

def job_c2_const : Job :=
  ⟨.frame tbl_empty, .apply, .a0, false, .rnone, true, [], [], func_const7⟩

/-- C2 witness: a raising (hence non-reduction-like) transformation on the
0x0 table gets back the table itself. -/
theorem empty_table_apply_copy_witness :
    (FrameApply.apply env_any job_c2_raise).1 = .ok (.table tbl_empty) :=
  (empty_table_apply_copy env_any job_c2_raise tbl_empty rfl rfl rfl rfl rfl).trans
    (by decide)

/-- C2 counterexample: a scalar-returning transformation on the 0x0 table
yields an empty reduced Series, not a copy of the table. -/
theorem empty_table_apply_copy_cex :
    (FrameApply.apply env_any job_c2_const).1 = .ok (.objSeries [] [] .float64)
    ∧ (FrameApply.apply env_any job_c2_const).1 ≠ .ok (.table tbl_empty) := by
  decide

/-- C4 (amended: the branch looks only at the first raw result): column-wise
reassembly goes through the table-rebuilding path (`infer_to_same_shape`:
construct, transpose, relabel with the preserved-axis labels, infer dtypes)
exactly when `result_type` is `"expand"` or the raw result at position 0 is
Series-like; otherwise it builds a reduced Series with the preserved-axis
labels. -/
theorem colwise_wrap_dispatch (st : Job) (r0 : RawResult) (rest : List RawResult)
    (ri : List Label) :
    FrameColumnApply.wrap_results_for_axis st (r0 :: rest) ri =
      if st.result_type = .expand ∨ r0.isSeriesLikeB = true
      then infer_to_same_shape (r0 :: rest) ri
      else constructorSlicedMany (r0 :: rest) ri := by
  unfold FrameColumnApply.wrap_results_for_axis
  by_cases he : st.result_type = .expand
  · simp [he]
  · cases hs : r0.isSeriesLikeB with
    | true => simp [he, hs]
    | false => simp [he, hs]

def ser_xy : SeriesS := ⟨Option.none, ["x", "y"], [.int 1, .int 2], .int64⟩

def tbl_2x2 : TableT :=
  ⟨["r0", "r1"], ["c0", "c1"], [[.int 1, .int 2], [.int 3, .int 4]], [.int64, .int64]⟩

def job_c4 : Job :=
  ⟨.frame tbl_2x2, .apply, .a1, false, .rnone, true, [], [], func_const7⟩

def results_c4 : List RawResult := [.series ser_xy, .scalar (.int 5)]

/-- C4 counterexample: with a Series first result but a scalar second result
(so *not* every raw result is Series-like) and no `result_type`, the code
still rebuilds a table instead of the claimed reduced Series. -/
theorem colwise_wrap_first_only_cex :
    FrameColumnApply.wrap_results_for_axis job_c4 results_c4 ["r0", "r1"]
      = .ok (.table ⟨["r0", "r1"], ["x", "y"],
          [[.int 1, .int 5], [.int 2, .int 5]], [.int64, .int64]⟩)
    ∧ FrameColumnApply.wrap_results_for_axis job_c4 results_c4 ["r0", "r1"]
        ≠ constructorSlicedMany results_c4 ["r0", "r1"] := by
  decide

/-- C5 (amended: the branch looks only at the first mapped value): the series
elementwise output goes through the table re-expansion constructor exactly
when the mapped sequence is non-empty and its first value is Series-like;
otherwise it is wrapped as a Series over the original index. -/
theorem series_standard_first_expand (st : Job) (obj : SeriesS)
    (cy : Option String) (f2 : Fn2) (mapped : List RawResult)
    (hf : st.func = .plain cy f2)
    (hm : mapE (fun v => f2 (.val v) [] []) obj.values = .ok mapped) :
    (mapped ≠ [] ∧ (mapped.headD (.scalar .nan)).isSeriesLikeB = true →
      SeriesApply.apply_standard st obj
        = Except.map ApplyOut.table (constructorExpanddim mapped obj.index))
    ∧ (¬(mapped ≠ [] ∧ (mapped.headD (.scalar .nan)).isSeriesLikeB = true) →
      SeriesApply.apply_standard st obj
        = .ok (.objSeries obj.index mapped
            (mappedDtype st.convert_dtype obj.dtype mapped))) := by
  unfold SeriesApply.apply_standard
  rw [hf]
  constructor
  · intro hcond
    simp only [hm]
    rw [if_pos hcond]
    cases he : constructorExpanddim mapped obj.index with
    | error e => simp [he, Except.map]
    | ok t => simp [he, Except.map]
  · intro hcond
    simp only [hm]
    rw [if_neg hcond]

def ser_e : SeriesS := ⟨some "s", ["e0", "e1"], [.int 1, .int 2], .int64⟩

def func_to_series : Func := .plain Option.none (fun _ _ _ => .ok (.series ser_xy))

def job_c5w : Job :=
  ⟨.ser ser_e, .apply, .a0, false, .rnone, true, [], [], func_to_series⟩

def mapped_c5w : List RawResult := [.series ser_xy, .series ser_xy]

/-- C5 witness: an all-Series mapping over a two-element series takes the
expansion path (and the non-expansion conclusion holds vacuously). -/
theorem series_standard_first_expand_witness :
    (mapped_c5w ≠ [] ∧ (mapped_c5w.headD (.scalar .nan)).isSeriesLikeB = true →
      SeriesApply.apply_standard job_c5w ser_e
        = Except.map ApplyOut.table (constructorExpanddim mapped_c5w ser_e.index))
    ∧ (¬(mapped_c5w ≠ [] ∧ (mapped_c5w.headD (.scalar .nan)).isSeriesLikeB = true) →
      SeriesApply.apply_standard job_c5w ser_e
        = .ok (.objSeries ser_e.index mapped_c5w
            (mappedDtype job_c5w.convert_dtype ser_e.dtype mapped_c5w))) :=
  series_standard_first_expand job_c5w ser_e Option.none
    (fun _ _ _ => .ok (.series ser_xy)) mapped_c5w rfl rfl

def func_mix : Func := .plain Option.none (fun x _ _ =>
  match x with
  | .val (.int 1) => .ok (.series ser_xy)
  | _ => .ok (.scalar (.int 9)))

def job_c5 : Job :=
  ⟨.ser ser_e, .apply, .a0, false, .rnone, true, [], [], func_mix⟩

/-- C5 counterexample: a Series first mapped value followed by a scalar (so
*not* every mapped value is Series-like) enters the expansion constructor and
aborts on the mixed data, instead of returning the claimed Series with the
original index. -/
theorem series_expand_first_only_cex :
    SeriesApply.apply_standard job_c5 ser_e = .error .typeMismatch
    ∧ SeriesApply.apply_standard job_c5 ser_e
        ≠ .ok (.objSeries ser_e.index [.series ser_xy, .scalar (.int 9)]
            (mappedDtype true ser_e.dtype [.series ser_xy, .scalar (.int 9)])) := by
  decide

/-- C6: in row-wise reassembly, when the raw results are plain arrays of
unequal lengths (outside the reduce and all-dict branches), the table
construction error is caught, not propagated, and the result degrades to the
reduced Series over the computed result index. -/
theorem rowwise_unequal_length_fallback (st : Job) (tbl : TableT)
    (results : List RawResult) (ri : List Label)
    (hrt : st.result_type ≠ .reduce)
    (hnf : results.any (fun r => match r with | .frame _ => true | _ => false) = false)
    (hu : seqLengths results ≠ [])
    (hu2 : (seqLengths results).any (fun L => L ≠ (seqLengths results).headD 0) = true)
    (hlen : results.length = ri.length) :
    FrameRowApply.wrap_results_for_axis st tbl results ri
      = .ok (.objSeries ri results (inferRDtype results)) := by
  have hdf : dataframe_from_results results = .error .allArraysSameLength := by
    unfold dataframe_from_results
    simp [hnf, hu, hu2]
    intro hall
    exfalso
    rcases List.any_eq_true.mp hu2 with ⟨L, hL, hne⟩
    have hne2 : L ≠ (seqLengths results).headD 0 := by simpa using hne
    have hhd : (seqLengths results).headD 0 = (seqLengths results).head?.getD 0 := by
      cases seqLengths results <;> rfl
    exact hne2 (hhd ▸ hall L hL)
  unfold FrameRowApply.wrap_results_for_axis
  simp [hrt, hdf, constructorSlicedMany, hlen]

def job_c6 : Job :=
  ⟨.frame tbl_2x2, .apply, .a0, false, .rnone, true, [], [], func_const7⟩

def results_c6 : List RawResult := [.seq [.int 2, .int 3], .seq [.int 1]]

/-- C6 witness: per-column arrays of lengths 2 and 1 degrade to the reduced
Series labelled by the result index. -/
theorem rowwise_unequal_length_fallback_witness :
    FrameRowApply.wrap_results_for_axis job_c6 tbl_2x2 results_c6 ["c0", "c1"]
      = .ok (.objSeries ["c0", "c1"] results_c6 (inferRDtype results_c6)) :=
  rowwise_unequal_length_fallback job_c6 tbl_2x2 results_c6 ["c0", "c1"]
    (by decide) (by decide) (by decide) (by decide) (by decide)

/-- C9 (amended: the stored kwds are mutated in two places): any `apply`
dispatch leaves the job state untouched except that the string-dispatch
branch writes the configured axis into the stored kwds when the named method
accepts an axis argument; the aggregate resolver's only state change is
popping the internal `"_axis"` key out of the stored kwds.  All other stored
fields (target, operation kind, axis, raw flag, result_type, args, and the
curried transformation) are never changed after construction. -/
theorem job_fields_stable (env : Env) (st : Job) :
    ((FrameApply.apply env st).2 = st
      ∨ (FrameApply.apply env st).2
          = { st with kwds := setKw st.kwds "axis" (axisNumVal st.axis) })
    ∧ (Apply.agg st).2 = { st with kwds := eraseKw st.kwds "_axis" } := by
  constructor
  · unfold FrameApply.apply
    split
    · exact Or.inl rfl
    · split_ifs <;>
        first
        | exact Or.inl rfl
        | (split <;>
            first
            | exact Or.inl rfl
            | exact Or.inr rfl
            | (split_ifs <;> first | exact Or.inl rfl | exact Or.inr rfl))
  · simp only [Apply.agg]
    split
    · rfl
    · rfl
    · rfl
    · split
      · split_ifs <;> rfl
      · rfl
    · rfl

def job_c9 : Job :=
  ⟨.frame tbl_2x2, .apply, .a0, false, .rnone, true, [], [], .name "shift"⟩

/-- C9 counterexample: dispatching a method-name transformation whose target
method accepts an axis argument writes `axis` into the stored kwds — the job
is not immutable after construction. -/
theorem job_kwds_mutation_cex :
    (FrameApply.apply env_any job_c9).2.kwds = [("axis", .int 0)]
    ∧ job_c9.kwds = []
    ∧ (FrameApply.apply env_any job_c9).2.kwds ≠ job_c9.kwds := by
  decide

def func_col_vals : Func := .plain Option.none (fun x _ _ =>
  match x with
  | .ser s => .ok (.seq s.values)
  | _ => .ok (.scalar .nan))

def job_c1 : Job :=
  ⟨.frame tbl_2x2, .apply, .a0, false, .broadcast, true, [], [], func_col_vals⟩

def results_c1 : List RawResult := [.seq [.int 1, .int 2], .seq [.int 3, .int 4]]

/-- C1 witness: broadcasting the identity column fill over a 2x2 table
raises no shape error and keeps the target's labels. -/
theorem broadcast_shape_and_labels_witness :
    (isShapeErrB (apply_broadcast job_c1 tbl_2x2)
        = results_c1.any (badBroadcast tbl_2x2.index.length))
    ∧ ((apply_broadcast job_c1 tbl_2x2).isOk = true →
        outTableLabels (apply_broadcast job_c1 tbl_2x2)
          = some (tbl_2x2.index, tbl_2x2.columns)) :=
  broadcast_shape_and_labels job_c1 tbl_2x2 results_c1 rfl (by decide)

/-- C7 witness: an unknown `result_type` string fails construction with the
invalid-argument error. -/
theorem construction_validates_result_type_witness :
    Apply.mk (.frame tbl_empty) .apply func_const7 .a0 false (some "bogus") true [] []
      = .error .invalidResultType :=
  (construction_validates_result_type (.frame tbl_empty) .apply func_const7 .a0
    false (some "bogus") true [] []).1.mpr (by decide)

/-- C10 witness: a concrete series job construction succeeds. -/
theorem series_job_fixes_witness :
    (series_apply ser_e .apply func_const7 false [] []).isOk = true :=
  (series_job_fixes_result_type_and_raw ser_e .apply func_const7 false [] []).1

def func_c8f : Fn2 := fun _ _ _ => .ok (.scalar .nan)

def job_c8 : Job :=
  ⟨.frame tbl_2x2, .agg, .a0, false, .rnone, true, [], [], .plain Option.none func_c8f⟩

/-- C8 witness: an unrecognized plain callable with no extra args/kwds defers
with `(None, post-processing-required)`. -/
theorem agg_defers_unrecognized_callable_witness :
    (Apply.agg job_c8).1 = .ok (Option.none, some true)
    ∧ (Apply.agg job_c8).2 = { job_c8 with kwds := eraseKw job_c8.kwds "_axis" } :=
  agg_defers_unrecognized_callable (.frame tbl_2x2) .agg .a0 false Option.none true
    [] [] Option.none func_c8f job_c8 rfl (Or.inl rfl)

end PandasApply
